import Mathlib

set_option autoImplicit false

/-!
Verification development for the workflow execution core of the SomeBot
repository (`src/langbot/pkg/workflow/...`).  The Python source is embedded
shallowly: pure data classes become structures, enum classes become inductive
types, and the executor's mutable loop becomes explicit state passing with a
fuel bound.  Dynamic (`Any`-typed) Python values are modelled by `PyObj`;
Python dictionaries by association lists in insertion order; a raised Python
exception by the `PyErr` payload of an `Except`.  External effects (the HTTP
request made by `http_request` nodes) are supplied as an explicit environment
function, and wall-clock time as an explicit `nowIso` string so that every
function is executable and deterministic.
-/

/-- Dynamic Python value (`Any` in the source). Floats do not occur in any of
the embedded code paths, so numbers are modelled as integers. -/
inductive PyObj where
  | null
  | bool (b : Bool)
  | int (n : Int)
  | str (s : String)
  | list (xs : List PyObj)
  | dict (kvs : List (String × PyObj))

/-- A Python `dict` with string keys, in insertion order. -/
abbrev PyDict := List (String × PyObj)

/-- Lookup, `d.get(k)` / `k in d`. Python dict keys are unique; on the
association lists built by this development the first hit is the only hit. -/
def pyDictGet {α : Type} (d : List (String × α)) (k : String) : Option α :=
  match d.find? (fun p => p.1 == k) with
  | some p => some p.2
  | none => none

/-- Assignment `d[k] = v`: an existing key keeps its position and gets the new
value, a new key is appended (Python insertion-order semantics). -/
def pyDictSet {α : Type} : List (String × α) → String → α → List (String × α)
  | [], k, v => [(k, v)]
  | (k', v') :: t, k, v =>
      if k' == k then (k, v) :: t else (k', v') :: pyDictSet t k v

/-- Deletion `d.pop(k, None)` / `del d[k]` (no error if absent). -/
def pyDictRemove {α : Type} (d : List (String × α)) (k : String) : List (String × α) :=
  d.filter (fun p => p.1 != k)

/-- A single quote character, kept out of string literals. -/
def sglQuote : String := String.singleton (Char.ofNat 39)

/-- An opening brace character. -/
def lbrace : String := String.singleton (Char.ofNat 123)

/-- A closing brace character. -/
def rbrace : String := String.singleton (Char.ofNat 125)

mutual
/-- Python `repr` for the modelled values (used by `str` on containers). -/
def pyRepr : PyObj → String
  | .null => "None"
  | .bool true => "True"
  | .bool false => "False"
  | .int n => toString n
  | .str s => sglQuote ++ s ++ sglQuote
  | .list xs => "[" ++ pyReprSeq xs ++ "]"
  | .dict kvs => lbrace ++ pyReprKvs kvs ++ rbrace

/-- Comma-joined reprs of a list of values. -/
def pyReprSeq : List PyObj → String
  | [] => ""
  | [x] => pyRepr x
  | x :: y :: t => pyRepr x ++ ", " ++ pyReprSeq (y :: t)

/-- Comma-joined reprs of the entries of a dict. -/
def pyReprKvs : List (String × PyObj) → String
  | [] => ""
  | [(k, v)] => sglQuote ++ k ++ sglQuote ++ ": " ++ pyRepr v
  | (k, v) :: p :: t => sglQuote ++ k ++ sglQuote ++ ": " ++ pyRepr v ++ ", " ++ pyReprKvs (p :: t)
end

/-- Python `str(v)`. Scalars print bare; containers print via `repr` of their
elements, exactly as CPython does. -/
def pyStr (v : PyObj) : String :=
  match v with
  | .null => "None"
  | .bool true => "True"
  | .bool false => "False"
  | .int n => toString n
  | .str s => s
  | .list xs => "[" ++ pyReprSeq xs ++ "]"
  | .dict kvs => lbrace ++ pyReprKvs kvs ++ rbrace

/-- Python truthiness of the modelled values. -/
def pyTruthy : PyObj → Bool
  | .null => false
  | .bool b => b
  | .int n => n != 0
  | .str s => s != ""
  | .list xs => !xs.isEmpty
  | .dict kvs => !kvs.isEmpty

mutual
/-- Python `==` on the modelled values. `True == 1` holds in Python because
`bool` is an `int` subtype; dict equality compares per key (keys are unique in
any genuine Python dict, so the length guard plus a one-sided per-key check is
equivalent to Python dict equality). -/
def pyEq : PyObj → PyObj → Bool
  | .null, .null => true
  | .bool a, .bool b => a == b
  | .bool a, .int n => (if a then (1 : Int) else 0) == n
  | .int n, .bool a => n == (if a then (1 : Int) else 0)
  | .int a, .int b => a == b
  | .str a, .str b => a == b
  | .list xs, .list ys => pyEqSeq xs ys
  | .dict xs, .dict ys => xs.length == ys.length && pyEqKvs xs ys
  | _, _ => false

/-- Pointwise Python `==` on lists. -/
def pyEqSeq : List PyObj → List PyObj → Bool
  | [], [] => true
  | x :: xs, y :: ys => pyEq x y && pyEqSeq xs ys
  | _, _ => false

/-- Per-key Python `==` of dict entries (each key of the left dict must map to
an equal value in the right dict). -/
def pyEqKvs : List (String × PyObj) → List (String × PyObj) → Bool
  | [], _ => true
  | (k, v) :: t, ys =>
      (match pyDictGet ys k with
       | some w => pyEq v w
       | none => false) && pyEqKvs t ys
end

/-- One pass of Python `str.replace(pat, rep)` over a character list, scanning
left to right and skipping over replaced text (non-overlapping matches).  The
fuel argument only serves structural recursion; `pyReplace` supplies
`text.length`, which suffices because the patterns used (always of the form
`\x7b\x7bNAME\x7d\x7d`) are non-empty. -/
def replaceCharsAux (pat rep : List Char) : Nat → List Char → List Char
  | _, [] => []
  | 0, text => text
  | fuel + 1, c :: cs =>
      if pat.isPrefixOf (c :: cs) then
        rep ++ replaceCharsAux pat rep fuel ((c :: cs).drop pat.length)
      else
        c :: replaceCharsAux pat rep fuel cs

/-- Python `s.replace(pat, rep)` for a non-empty `pat`. -/
def pyReplace (s pat rep : String) : String :=
  ⟨replaceCharsAux pat.data rep.data s.data.length s.data⟩

example : pyReplace "hi \x7b\x7bname\x7d\x7d" "\x7b\x7bname\x7d\x7d" "world" = "hi world" := by decide
example : pyReplace "aaa" "aa" "b" = "ba" := by decide
example : pyStr (.list [.str "a", .int 3]) = "[" ++ sglQuote ++ "a" ++ sglQuote ++ ", 3]" := by decide

/-!
### Entity model (`entities.py`)

Enum classes become inductive types carrying their `.value` string; the
pydantic models become structures.  Optional fields are `Option`s; `Any`
fields are `PyObj`.  Timestamps are opaque ISO strings.
-/

/-- `WorkflowTriggerType` enum (entities.py). -/
inductive WorkflowTriggerType where
  | personMessage | groupMessage | scheduled | manual | api
deriving DecidableEq

/-- The `.value` string of a trigger type. -/
def WorkflowTriggerType.value : WorkflowTriggerType → String
  | .personMessage => "person_message"
  | .groupMessage => "group_message"
  | .scheduled => "scheduled"
  | .manual => "manual"
  | .api => "api"

/-- `NodeType` enum (entities.py). The Python member `END` is rendered
`endNode` because `end` is a Lean keyword. -/
inductive NodeType where
  | eventStart | scheduleStart
  | condition | branch | loop
  | httpRequest | binaryStorage | fileStorage | jsonProcessor | replyMessage | toolAction
  | setVariable | getVariable
  | chatCommandBranch
  | endNode
deriving DecidableEq

/-- The `.value` string of a node type. -/
def NodeType.value : NodeType → String
  | .eventStart => "event_start"
  | .scheduleStart => "schedule_start"
  | .condition => "condition"
  | .branch => "branch"
  | .loop => "loop"
  | .httpRequest => "http_request"
  | .binaryStorage => "binary_storage"
  | .fileStorage => "file_storage"
  | .jsonProcessor => "json_processor"
  | .replyMessage => "reply_message"
  | .toolAction => "tool_action"
  | .setVariable => "set_variable"
  | .getVariable => "get_variable"
  | .chatCommandBranch => "chat_command_branch"
  | .endNode => "end"

/-- `NodeStatus` enum (entities.py). -/
inductive NodeStatus where
  | pending | running | success | failed | skipped | cancelled
deriving DecidableEq, Inhabited

/-- `WorkflowStatus` enum (entities.py). -/
inductive WorkflowStatus where
  | draft | active | inactive | archived
deriving DecidableEq

/-- The `.value` string of a workflow status. -/
def WorkflowStatus.value : WorkflowStatus → String
  | .draft => "draft"
  | .active => "active"
  | .inactive => "inactive"
  | .archived => "archived"

/-- `EdgeCondition` model (entities.py). `type` is a Lean keyword, hence
`type'`. The required-but-`Any` field `value` models Python `None` as
`PyObj.null`. -/
structure EdgeCondition where
  type' : String
  field : Option String
  value : PyObj
  operator : Option String

/-- `WorkflowEdge` model (entities.py). -/
structure WorkflowEdge where
  id : String
  source : String
  target : String
  condition : Option EdgeCondition
  label : Option String

/-- The three knobs shared by every node config (`NodeConfig` base model). -/
structure CommonCfg where
  timeout : Option Int
  retry : Option Int
  error_handler : Option String

/-- Default common config: all three fields `None`. -/
def CommonCfg.none : CommonCfg := ⟨Option.none, Option.none, Option.none⟩

/-- The `config` union of `WorkflowNode` (entities.py): one variant per
config subclass, plus the plain `NodeConfig` base (`base`).  Each variant
embeds the common knobs. -/
inductive NodeCfg where
  | eventStart (c : CommonCfg) (trigger_type : WorkflowTriggerType) (filters : Option PyDict)
  | scheduleStart (c : CommonCfg) (cron_expression : String) (timezone : Option String)
  | httpRequest (c : CommonCfg) (method : String) (url : String)
      (headers : Option (List (String × String))) (body : Option PyObj)
      (auth : Option (List (String × String)))
  | jsonProcessor (c : CommonCfg) (operation : String) (path : Option String) (value : Option PyObj)
  | replyMessage (c : CommonCfg) (content : String) (reply_to : Option String)
      (components : Option (List PyObj))
  | variableCfg (c : CommonCfg) (variable_name : String) (value : Option PyObj) (default : Option PyObj)
  | conditionCfg (c : CommonCfg) (conditions : List EdgeCondition) (default_branch : Option String)
  | toolAction (c : CommonCfg) (tool_id : String) (parameters : Option PyDict)
  | base (c : CommonCfg)

/-- The common knobs of any config variant. -/
def NodeCfg.common : NodeCfg → CommonCfg
  | .eventStart c _ _ => c
  | .scheduleStart c _ _ => c
  | .httpRequest c _ _ _ _ _ => c
  | .jsonProcessor c _ _ _ => c
  | .replyMessage c _ _ _ => c
  | .variableCfg c _ _ _ => c
  | .conditionCfg c _ _ => c
  | .toolAction c _ _ => c
  | .base c => c

/-- `WorkflowNode` model (entities.py). The runtime fields `status` and
`error` are carried but never serialized. The UI `position` maps strings to
floats in Python; coordinates are modelled as integers (they are passed
through opaquely everywhere). -/
structure WorkflowNode where
  id : String
  type' : NodeType
  name : String
  description : Option String
  position : Option (List (String × Int))
  config : NodeCfg
  status : Option NodeStatus
  error : Option String

/-- `WorkflowVariable` model (entities.py). -/
structure WorkflowVariable where
  name : String
  value : PyObj
  type' : Option String
  scope : Option String

/-- `Workflow` model (entities.py). The field `variables` is rendered
`variables'` (`variables` is reserved in Lean). It is `Dict[str, Dict[str,
Any]]`-shaped in the source but typed loosely, so each declaration body is a
raw `PyObj` (the executor accesses it with `.get`, which fails on non-dict
bodies exactly as in Python). -/
structure Workflow where
  id : String
  name : String
  description : Option String
  nodes : List WorkflowNode
  edges : List WorkflowEdge
  status : WorkflowStatus
  trigger_types : List WorkflowTriggerType
  variables' : Option (List (String × PyObj))
  version : Int
  created_at : String
  updated_at : String
  created_by : Option String
  bot_id : Option String
  tags : List String
  category : Option String

/-- Entry of `Context.errors` / `Result.errors`: the executor appends dicts
with an optional `node_id`, an `error` message and a `timestamp`. -/
structure ErrEntry where
  node_id : Option String
  error : String
  timestamp : String
deriving DecidableEq

/-- `WorkflowContext` model (entities.py). `variables` and `node_outputs` are
dicts in insertion order; the source field `variables` is rendered
`variables'`. -/
structure WorkflowContext where
  workflow_id : String
  execution_id : String
  trigger : WorkflowTriggerType
  trigger_data : PyDict
  variables' : List (String × WorkflowVariable)
  node_outputs : List (String × PyObj)
  current_node : Option String
  executed_nodes : List String
  started_at : String
  completed_at : Option String
  errors : List ErrEntry

/-- `WorkflowExecutionResult` model (entities.py). -/
structure WorkflowExecutionResult where
  execution_id : String
  workflow_id : String
  status : NodeStatus
  started_at : String
  completed_at : Option String
  duration_ms : Option Int
  outputs : List (String × PyObj)
  final_variables : List (String × PyObj)
  executed_nodes : List String
  skipped_nodes : List String
  errors : List ErrEntry
  messages_sent : List PyObj

instance : Inhabited PyObj := ⟨PyObj.null⟩

instance : Inhabited WorkflowExecutionResult :=
  ⟨⟨"", "", .failed, "", Option.none, Option.none, [], [], [], [], [], []⟩⟩

/-!
### Node handlers (`nodes/__init__.py`, `nodes/base.py`, `nodes/builtin/*`)

A raised Python exception is an `Except.error` carrying a `PyErr`.  Several
builtin handlers call `config.get(...)` although `self.node.config` is always
a pydantic model (never a plain dict), and pydantic models have no `get`
method: those handlers raise `AttributeError` on every execution.  Likewise
`ConditionNode` subscripts `condition['field']` although each condition is an
`EdgeCondition` model, which is not subscriptable: a non-empty condition list
raises `TypeError`.
-/

/-- A raised Python exception, by class, carrying `str(e)`. -/
inductive PyErr where
  | valueError (msg : String)
  | attributeError (msg : String)
  | typeError (msg : String)
deriving DecidableEq

/-- Python `str(e)` of an exception: the message. -/
def pyErrStr : PyErr → String
  | .valueError m => m
  | .attributeError m => m
  | .typeError m => m

/-- The HTTP request assembled by `HttpRequestNode.execute`. -/
structure HttpReq where
  method : String
  url : String
  headers : Option (List (String × String))
  body : Option PyObj
  timeout : Option Int

/-- What the network does with a request: a response, or a raised client
error (connection failure, timeout, ...). -/
inductive HttpOutcome where
  | resp (status : Int) (headers : List (String × String)) (body : String)
  | exn (msg : String)

/-- The network, as an explicit environment. -/
abbrev HttpEnv := HttpReq → HttpOutcome

/-- The token `\x7b\x7bNAME\x7d\x7d` built by the f-string
`f"\x7b\x7b\x7b\x7b\x7bvar_name\x7d\x7d\x7d\x7d\x7d"` in the source. -/
def varToken (name : String) : String :=
  lbrace ++ lbrace ++ name ++ rbrace ++ rbrace

/-- Variable substitution loop shared by `reply_message.py` (lines 17-19) and
`http_request.py` (lines 23-26): one global `str.replace` per context
variable, in context-dict insertion order. -/
def substituteVariables (vars : List (String × WorkflowVariable)) (content : String) : String :=
  vars.foldl (fun acc p => pyReplace acc (varToken p.1) (pyStr p.2.value)) content

/-- The substitution loop of `HttpRequestNode.execute`: each iteration
replaces in the URL and, when `body` is truthy, in the body; a truthy
non-string body has no `replace` method and raises `AttributeError`. -/
def httpSubstitute (vars : List (String × WorkflowVariable)) :
    String → Option PyObj → Except PyErr (String × Option PyObj)
  | u, b =>
    vars.foldlM
      (fun (acc : String × Option PyObj) p => do
        let u' := pyReplace acc.1 (varToken p.1) (pyStr p.2.value)
        match acc.2 with
        | some bv =>
            if pyTruthy bv then
              match bv with
              | .str s => pure (u', some (.str (pyReplace s (varToken p.1) (pyStr p.2.value))))
              | _ => throw (PyErr.attributeError "object has no attribute replace")
            else pure (u', acc.2)
        | none => pure (u', none))
      (u, b)

/-- Python substring test `pat in text` on character lists. -/
def hasSub (pat : List Char) : List Char → Bool
  | [] => pat.isEmpty
  | c :: cs => pat.isPrefixOf (c :: cs) || hasSub pat cs

/-- `WorkflowExecutor._evaluate_edge_condition` (executor.py lines 239-259).
`EdgeCondition` always has `field`, `value` and `operator` attributes, so the
`hasattr` guards always succeed; an unknown or absent operator falls through
to the default equality comparison.  The node output of every executable node
is a dict, on which `.get` of a `None` field yields `None`.  Python `x in s`
requires a string left operand, else `TypeError`. -/
def evaluateEdgeCondition (cond : EdgeCondition) (out : PyObj) : Except PyErr Bool :=
  match out with
  | .dict d =>
    let fv : PyObj :=
      match cond.field with
      | some f => (pyDictGet d f).getD .null
      | none => .null
    match cond.operator with
    | some "equals" => .ok (pyEq fv cond.value)
    | some "not_equals" => .ok (!pyEq fv cond.value)
    | some "contains" =>
        match cond.value with
        | .str s => .ok (hasSub s.data (pyStr fv).data)
        | _ => .error (.typeError "in requires string as left operand")
    | _ => .ok (pyEq fv cond.value)
  | _ => .error (.attributeError "object has no attribute get")

/-- Per-node-type handler semantics, `execute(context) -> (status, output)`
(nodes/builtin/*.py).  Raising handlers raise before reading any config
field.  The types `branch`, `loop`, `binary_storage` and `file_storage` never
reach this function (`create_node` rejects them first). -/
def executeNode (env : HttpEnv) (nowIso : String) (node : WorkflowNode)
    (ctx : WorkflowContext) : Except PyErr (NodeStatus × PyObj) :=
  match node.type' with
  | .eventStart =>
      -- event_start.py: pass through the trigger data.
      .ok (.success, .dict ctx.trigger_data)
  | .scheduleStart =>
      -- schedule_start.py line 14: `config.get(...)` on a pydantic model.
      .error (.attributeError "object has no attribute get")
  | .condition =>
      -- condition.py: `config.conditions` requires the ConditionConfig
      -- variant; a non-empty list subscripts an EdgeCondition model at
      -- `condition['field']` (line 23) and raises TypeError; an empty list
      -- yields all([]) gated to False, emitted as result=False.
      match node.config with
      | .conditionCfg _ conds _ =>
          match conds with
          | [] => .ok (.success, .dict [("result", .bool false)])
          | _ :: _ => .error (.typeError "EdgeCondition object is not subscriptable")
      | _ => .error (.attributeError "object has no attribute conditions")
  | .httpRequest =>
      -- http_request.py: substitute variables in URL/body then perform the
      -- request; any client exception is caught and reported via the
      -- returned status, never raised.
      match node.config with
      | .httpRequest c m url hs body _auth => do
          let (url', body') ← httpSubstitute ctx.variables' url body
          match env ⟨m, url', hs, body', c.timeout⟩ with
          | .resp st rh rb =>
              .ok (.success, .dict [("status", .int st),
                ("headers", .dict (rh.map (fun p => (p.1, PyObj.str p.2)))),
                ("body", .str rb)])
          | .exn msg => .ok (.failed, .dict [("error", .str msg)])
      | _ => .error (.attributeError "object has no attribute method")
  | .jsonProcessor =>
      -- json_processor.py line 14: `config.get(...)` on a pydantic model.
      .error (.attributeError "object has no attribute get")
  | .replyMessage =>
      -- reply_message.py: substitute variables in the content; the result
      -- dict records the message, but nothing is appended to any
      -- `messages_sent` list on the context.
      match node.config with
      | .replyMessage _ content _ _ =>
          .ok (.success, .dict [("message_sent", .bool true),
            ("content", .str (substituteVariables ctx.variables' content))])
      | _ => .error (.attributeError "object has no attribute content")
  | .toolAction =>
      -- tool_action.py line 16: `config.get(...)` on a pydantic model.
      .error (.attributeError "object has no attribute get")
  | .setVariable =>
      -- set_variable.py line 13: `config.get(...)` on a pydantic model.
      .error (.attributeError "object has no attribute get")
  | .getVariable =>
      -- get_variable.py line 13: `config.get(...)` on a pydantic model.
      .error (.attributeError "object has no attribute get")
  | .chatCommandBranch =>
      -- chat_command_branch.py line 13: `config.get(...)` on a pydantic model.
      .error (.attributeError "object has no attribute get")
  | .endNode =>
      -- end.py: completion marker.
      .ok (.success, .dict [("completed", .bool true), ("completed_at", .str nowIso)])
  | _ => .error (.valueError "unreachable: rejected by create_node")

/-- Whether `create_node` (nodes/__init__.py) finds the node type in
`NODE_REGISTRY`: the enum values `branch`, `loop`, `binary_storage` and
`file_storage` have no registered handler class. -/
def registryHas : NodeType → Bool
  | .branch | .loop | .binaryStorage | .fileStorage => false
  | _ => true

/-- `create_node` followed by `NodeWrapper.run` (nodes/__init__.py lines
52-61, 68-109): an unregistered type raises `ValueError`; otherwise the
handler runs and its output is stored in `context.node_outputs[node.id]`.
The returned `NodeStatus` is recorded on the wrapper but `run` returns only
the output: the executor never sees the status. -/
def createAndRun (env : HttpEnv) (nowIso : String) (node : WorkflowNode)
    (ctx : WorkflowContext) : Except PyErr (NodeStatus × PyObj × WorkflowContext) :=
  if registryHas node.type' then
    match executeNode env nowIso node ctx with
    | .ok (st, out) =>
        .ok (st, out, {ctx with node_outputs := pyDictSet ctx.node_outputs node.id out})
    | .error e => .error e
  else
    .error (.valueError ("Unknown node type: " ++ node.type'.value))

/-!
### Graph executor (`executor.py`)

`WorkflowExecutor` precomputes `node_map` (a dict comprehension, so a later
node with a duplicate id wins), `edge_map` (outgoing edges of a source, in
workflow order) and `reverse_edge_map` (incoming edges of a target).  The
BFS work loop of `_execute_from_nodes` becomes a fuel-indexed step function;
`ExecOutcome.outOfFuel` marks a run that is still looping after `fuel`
iterations (the source has no starvation detection, so some inputs loop
forever).  Wall-clock instants are collapsed to the single `nowIso`
parameter, making every duration 0 ms.
-/

/-- `self.node_map[nid]` (executor.py lines 41, 194-195): a dict built with a
comprehension, so the last node with a given id wins. -/
def nodeMapGet (w : Workflow) (nid : String) : Option WorkflowNode :=
  w.nodes.reverse.find? (fun n => n.id == nid)

/-- `self.edge_map.get(nid, [])` (executor.py lines 45-48): outgoing edges in
workflow order. -/
def edgeMapGet (w : Workflow) (nid : String) : List WorkflowEdge :=
  w.edges.filter (fun e => e.source == nid)

/-- `self.reverse_edge_map.get(nid, [])` (executor.py lines 50-52): incoming
edges in workflow order. -/
def reverseEdgeMapGet (w : Workflow) (nid : String) : List WorkflowEdge :=
  w.edges.filter (fun e => e.target == nid)

/-- `WorkflowExecutor._are_dependencies_satisfied` (executor.py lines
223-237): every source of an incoming edge must already be executed; no
incoming edges means satisfied. -/
def areDependenciesSatisfied (w : Workflow) (executed : List String)
    (node : WorkflowNode) : Bool :=
  (reverseEdgeMapGet w node.id).all (fun e => executed.contains e.source)

/-- `WorkflowExecutor._find_start_nodes` (executor.py lines 138-151), read
at enum value: start nodes are `event_start` nodes whose config carries a
matching `trigger_type` (the `hasattr` guard succeeds exactly on the
`EventStartConfig` variant), and `schedule_start` nodes when the trigger is
`scheduled`.  At runtime `use_enum_values` (entities.py) stores `node.type`
as a value string and plain-`Enum` equality makes the membership test False
for every node, so the real function returns no start node at all (see
`findStartNodesValidated` below); this enum-reading model over-approximates
the start set, which is conservative for the dependency-safety invariant of
claim C6. -/
def findStartNodes (w : Workflow) (trigger : WorkflowTriggerType) : List WorkflowNode :=
  w.nodes.filter (fun n =>
    match n.type' with
    | .eventStart =>
        match n.config with
        | .eventStart _ tt _ => tt == trigger
        | _ => false
    | .scheduleStart => trigger == .scheduled
    | _ => false)

/-- `result.get("branch")` on a condition node's output (executor.py line
185).  The output of a condition handler is always a dict. -/
def branchOf (out : PyObj) : Option PyObj :=
  match out with
  | .dict d => pyDictGet d "branch"
  | _ => none

/-- Edge filter for condition nodes (executor.py lines 186-187):
`e.label == branch or (not e.label and branch == "default")`, under Python
equality (`None == None` is true, a string label never equals `None`, and a
falsy label is `None` or the empty string). -/
def labelMatchesBranch (label : Option String) (branch : Option PyObj) : Bool :=
  (match label, branch with
   | none, none => true
   | some s, some v => pyEq (.str s) v
   | _, _ => false)
  ||
  ((label == none || label == some "")
    && (match branch with
        | some v => pyEq v (.str "default")
        | none => false))

/-- The successor-enqueue loop (executor.py lines 192-202): for each edge
whose target exists in `node_map`, evaluate the edge condition if present and
enqueue the target.  An exception raised by a condition evaluation aborts the
loop, keeping the nodes already enqueued. -/
def enqueueSuccessors (w : Workflow) (out : PyObj) :
    List WorkflowEdge → List WorkflowNode × Option PyErr
  | [] => ([], none)
  | e :: rest =>
    match nodeMapGet w e.target with
    | none => enqueueSuccessors w out rest
    | some nxt =>
      match e.condition with
      | none =>
          let (ns, err) := enqueueSuccessors w out rest
          (nxt :: ns, err)
      | some cond =>
          match evaluateEdgeCondition cond out with
          | .ok true =>
              let (ns, err) := enqueueSuccessors w out rest
              (nxt :: ns, err)
          | .ok false => enqueueSuccessors w out rest
          | .error err => ([], some err)

/-- Mutable state of the `_execute_from_nodes` loop: the work queue, the
`executed` and `skipped` sets (insertion-ordered lists with membership
semantics) and the context. -/
structure ExecCore where
  queue : List WorkflowNode
  executed : List String
  skipped : List String
  ctx : WorkflowContext

/-- Result of one loop iteration: continue with a new state, or a raised
exception escaping the loop (the `raise` of the stop policy). -/
inductive StepOut where
  | cont (core : ExecCore)
  | raised (e : PyErr) (core : ExecCore)

/-- The `except` branch of the node-execution loop (executor.py lines
204-221): record the error, then consult
`getattr(node.config, 'error_handler', 'stop')`.  The attribute always
exists (default `None`), so an unset handler is `None`, which matches
neither `'stop'` nor `'skip'` and falls through (continue semantics).
`'skip'` additionally enqueues every outgoing target present in `node_map`. -/
def handleNodeError (w : Workflow) (nowIso : String) (node : WorkflowNode)
    (core : ExecCore) (e : PyErr) : StepOut :=
  let ctx' := {core.ctx with
    errors := core.ctx.errors ++ [⟨some node.id, pyErrStr e, nowIso⟩]}
  match node.config.common.error_handler with
  | some "stop" => .raised e {core with ctx := ctx'}
  | some "skip" =>
      let targets := (edgeMapGet w node.id).filterMap (fun ed => nodeMapGet w ed.target)
      .cont ⟨core.queue ++ targets, core.executed, core.skipped ++ [node.id], ctx'⟩
  | _ => .cont {core with ctx := ctx'}

/-- One iteration of the `while queue` loop of `_execute_from_nodes`
(executor.py lines 160-221), for a popped `node` and remaining queue `rest`:
skip already-executed/skipped nodes, re-queue non-ready nodes, otherwise run
the node.  On a normally returned output the node counts as executed
whatever `NodeStatus` the handler reported (the wrapper discards it); the
condition-node branch filter applies only to `NodeType.condition` (read at
enum value; at runtime even that guard compares the stored value string to
an enum member and never holds, see `branchFilterApplies` below). -/
def stepNode (env : HttpEnv) (nowIso : String) (w : Workflow)
    (node : WorkflowNode) (rest : List WorkflowNode) (core : ExecCore) : StepOut :=
  if core.executed.contains node.id || core.skipped.contains node.id then
    .cont {core with queue := rest}
  else if !(areDependenciesSatisfied w core.executed node) then
    .cont {core with queue := rest ++ [node]}
  else
    let ctx0 := {core.ctx with current_node := some node.id}
    match createAndRun env nowIso node ctx0 with
    | .ok (_st, out, ctx1) =>
        let executed' := core.executed ++ [node.id]
        let ctx2 := {ctx1 with executed_nodes := ctx1.executed_nodes ++ [node.id]}
        let outgoing := edgeMapGet w node.id
        let nextEdges :=
          if node.type' == NodeType.condition then
            outgoing.filter (fun e => labelMatchesBranch e.label (branchOf out))
          else outgoing
        match enqueueSuccessors w out nextEdges with
        | (ns, none) => .cont ⟨rest ++ ns, executed', core.skipped, ctx2⟩
        | (ns, some e) => handleNodeError w nowIso node ⟨rest ++ ns, executed', core.skipped, ctx2⟩ e
    | .error e => handleNodeError w nowIso node {core with queue := rest, ctx := ctx0} e

/-- Outcome of the work loop. -/
inductive LoopOut where
  | finished (core : ExecCore)
  | raised (e : PyErr) (core : ExecCore)
  | outOfFuel

/-- The `while queue` loop of `_execute_from_nodes`, indexed by fuel.  An
empty queue terminates the loop regardless of fuel; a non-empty queue with no
fuel left is reported as `outOfFuel`. -/
def runLoop (env : HttpEnv) (nowIso : String) (w : Workflow) :
    Nat → ExecCore → LoopOut
  | fuel, core =>
    match core.queue with
    | [] => .finished core
    | node :: rest =>
      match fuel with
      | 0 => .outOfFuel
      | f + 1 =>
        match stepNode env nowIso w node rest core with
        | .cont core' => runLoop env nowIso w f core'
        | .raised e core' => .raised e core'

/-- Context-variable initialisation (executor.py lines 76-84): each declared
variable becomes a `WorkflowVariable` valued at its `default`.  A declaration
body that is not a dict has no `get` method (`AttributeError` escapes
`execute`, which has not yet entered its `try`). Non-string `type`/`scope`
declarations would be rejected by pydantic and are not modelled. -/
def initVariables : List (String × PyObj) → Except PyErr (List (String × WorkflowVariable))
  | [] => .ok []
  | (n, vd) :: t =>
    match vd with
    | .dict d => do
        let rest ← initVariables t
        .ok ((n, ⟨n, (pyDictGet d "default").getD .null,
          some (match pyDictGet d "type" with | some (.str s) => s | _ => "Any"),
          some (match pyDictGet d "scope" with | some (.str s) => s | _ => "workflow")⟩) :: rest)
    | _ => .error (.attributeError "object has no attribute get")

/-- Result of `WorkflowExecutor.execute`: a `WorkflowExecutionResult`, or a
run that was still looping when the fuel ran out. -/
inductive ExecOutcome where
  | result (r : WorkflowExecutionResult)
  | outOfFuel

/-- The success result built at executor.py lines 96-108.  `skipped_nodes` is
not passed, so the pydantic default `[]` applies; `messages_sent` is read
with `getattr(self.context, 'messages_sent', [])` and no code ever sets that
attribute, so it is always `[]`. -/
def buildSuccessResult (execId nowIso : String) (w : Workflow)
    (core : ExecCore) : WorkflowExecutionResult :=
  { execution_id := execId, workflow_id := w.id, status := .success,
    started_at := nowIso, completed_at := some nowIso, duration_ms := some 0,
    outputs := core.ctx.node_outputs,
    final_variables := core.ctx.variables'.map (fun p => (p.1, p.2.value)),
    executed_nodes := core.ctx.executed_nodes, skipped_nodes := [],
    errors := core.ctx.errors, messages_sent := [] }

/-- The failure result built at executor.py lines 113-136: the caught
exception is appended to the errors (without a node id) and the status is
`failed`.  As for success, `skipped_nodes` and `messages_sent` are always
`[]`. -/
def buildFailedResult (execId nowIso : String) (w : Workflow)
    (core : ExecCore) (e : PyErr) : WorkflowExecutionResult :=
  { execution_id := execId, workflow_id := w.id, status := .failed,
    started_at := nowIso, completed_at := some nowIso, duration_ms := some 0,
    outputs := core.ctx.node_outputs,
    final_variables := core.ctx.variables'.map (fun p => (p.1, p.2.value)),
    executed_nodes := core.ctx.executed_nodes, skipped_nodes := [],
    errors := core.ctx.errors ++ [⟨none, pyErrStr e, nowIso⟩],
    messages_sent := [] }

/-- `WorkflowExecutor.execute` (executor.py lines 54-136), read at enum
value.  A non-active workflow raises `ValueError` before the `try` block (no
result); so does a malformed variable declaration.  Inside the `try`, an
empty start set raises `ValueError`, caught by the `except` into a failed
result; otherwise the BFS loop runs and either drains the queue (success
result), re-raises a stop-policy error (failed result), or keeps looping
(out of fuel).  At runtime `use_enum_values` stores `status` as the value
string, the comparison at line 63 fails for every validated workflow and
`execute` raises before anything else (see `executeValidated` below); this
enum-reading model over-approximates the set of executions the program can
perform, which is conservative for the dependency-safety invariant of claim
C6. -/
def executeWorkflow (env : HttpEnv) (execId nowIso : String) (w : Workflow)
    (trigger : WorkflowTriggerType) (trigger_data : Option PyDict)
    (fuel : Nat) : Except PyErr ExecOutcome :=
  if w.status != .active then
    .error (.valueError ("Workflow is not active: " ++ w.status.value))
  else do
    let vars ← initVariables (w.variables'.getD [])
    let ctx0 : WorkflowContext :=
      { workflow_id := w.id, execution_id := execId, trigger := trigger,
        trigger_data := trigger_data.getD [], variables' := vars,
        node_outputs := [], current_node := none, executed_nodes := [],
        started_at := nowIso, completed_at := none, errors := [] }
    let starts := findStartNodes w trigger
    if starts.isEmpty then
      .ok (.result (buildFailedResult execId nowIso w ⟨[], [], [], ctx0⟩
        (.valueError "No start nodes found in workflow")))
    else
      match runLoop env nowIso w fuel ⟨starts, [], [], ctx0⟩ with
      | .finished core => .ok (.result (buildSuccessResult execId nowIso w core))
      | .raised e core => .ok (.result (buildFailedResult execId nowIso w core e))
      | .outOfFuel => .ok .outOfFuel

/-!
### Concrete scenario fixtures

Small workflows mirroring the spec scenarios S1-S5, used to evaluate the
embedded executor at concrete inputs.
-/

/-- A network on which every request raises a client error. -/
def envDown : HttpEnv := fun _ => .exn "Cannot connect to host"

/-- Node fixture: name = id, no description/position/runtime fields. -/
def mkNode (nid : String) (t : NodeType) (cfg : NodeCfg) : WorkflowNode :=
  ⟨nid, t, nid, none, none, cfg, none, none⟩

/-- Unconditioned edge fixture. -/
def mkEdge (eid src tgt : String) (label : Option String) : WorkflowEdge :=
  ⟨eid, src, tgt, none, label⟩

/-- Active workflow fixture around the given nodes, edges and variable
declarations. -/
def mkWorkflow (nodes : List WorkflowNode) (edges : List WorkflowEdge)
    (vars : Option (List (String × PyObj))) : Workflow :=
  { id := "wf", name := "wf", description := none, nodes := nodes,
    edges := edges, status := .active, trigger_types := [.personMessage],
    variables' := vars, version := 1, created_at := "t0", updated_at := "t0",
    created_by := none, bot_id := none, tags := [], category := none }

/-- The produced result of an execution, if any. -/
def outcomeResult? : Except PyErr ExecOutcome → Option WorkflowExecutionResult
  | .ok (.result r) => some r
  | _ => none

/-- String field `fld` of the recorded output of node `nid`. -/
def outputStrField (r : WorkflowExecutionResult) (nid fld : String) : Option String :=
  match pyDictGet r.outputs nid with
  | some (.dict d) =>
      match pyDictGet d fld with
      | some (.str s) => some s
      | _ => none
  | _ => none

/-- Bool field `fld` of the recorded output of node `nid`. -/
def outputBoolField (r : WorkflowExecutionResult) (nid fld : String) : Option Bool :=
  match pyDictGet r.outputs nid with
  | some (.dict d) =>
      match pyDictGet d fld with
      | some (.bool b) => some b
      | _ => none
  | _ => none

/-- Whether node `nid` has an output recording field `fld` at all. -/
def outputHasField (r : WorkflowExecutionResult) (nid fld : String) : Bool :=
  match pyDictGet r.outputs nid with
  | some (.dict d) => (pyDictGet d fld).isSome
  | _ => false

/-- S1: `event_start -> reply_message("hi \x7b\x7bname\x7d\x7d")` with the
variable `name` defaulting to `"world"`. -/
def wS1 : Workflow :=
  mkWorkflow
    [mkNode "start" .eventStart (.eventStart CommonCfg.none .personMessage none),
     mkNode "reply" .replyMessage (.replyMessage CommonCfg.none
       ("hi " ++ varToken "name") none none)]
    [mkEdge "e1" "start" "reply" none]
    (some [("name", .dict [("default", .str "world")])])

/-- The S1 execution. -/
def s1Run : Except PyErr ExecOutcome :=
  executeWorkflow envDown "e" "n" wS1 .personMessage
    (some [("content", .str "anything")]) 10

/-- S3 with explicit stop policy:
`event_start -> http_request(error_handler="stop") -> reply_message`. -/
def wS3 : Workflow :=
  mkWorkflow
    [mkNode "start" .eventStart (.eventStart CommonCfg.none .personMessage none),
     mkNode "http" .httpRequest (.httpRequest ⟨none, none, some "stop"⟩
       "GET" "http://bad" none none none),
     mkNode "reply" .replyMessage (.replyMessage CommonCfg.none "ok" none none)]
    [mkEdge "e1" "start" "http" none, mkEdge "e2" "http" "reply" none]
    none

/-- The S3 execution (the request raises inside the handler, which catches it
and returns `(Failed, dict with error)`). -/
def s3Run : Except PyErr ExecOutcome :=
  executeWorkflow envDown "e" "n" wS3 .personMessage none 10

/-- S4: S3 with `error_handler="skip"`. -/
def wS4 : Workflow :=
  mkWorkflow
    [mkNode "start" .eventStart (.eventStart CommonCfg.none .personMessage none),
     mkNode "http" .httpRequest (.httpRequest ⟨none, none, some "skip"⟩
       "GET" "http://bad" none none none),
     mkNode "reply" .replyMessage (.replyMessage CommonCfg.none "ok" none none)]
    [mkEdge "e1" "start" "http" none, mkEdge "e2" "http" "reply" none]
    none

/-- The S4 execution. -/
def s4Run : Except PyErr ExecOutcome :=
  executeWorkflow envDown "e" "n" wS4 .personMessage none 10

/-- Branching fixture: `event_start -> condition` (empty clause list, so the
handler emits `result=False` without raising) with an edge labelled
`"false"` to `r1` and an unlabelled edge to `r2`. -/
def wC2 : Workflow :=
  mkWorkflow
    [mkNode "start" .eventStart (.eventStart CommonCfg.none .personMessage none),
     mkNode "cond" .condition (.conditionCfg CommonCfg.none [] none),
     mkNode "r1" .replyMessage (.replyMessage CommonCfg.none "R1" none none),
     mkNode "r2" .replyMessage (.replyMessage CommonCfg.none "R2" none none)]
    [mkEdge "e1" "start" "cond" none,
     mkEdge "eLabelled" "cond" "r1" (some "false"),
     mkEdge "eUnlabelled" "cond" "r2" none]
    none

/-- The branching execution. -/
def c2Run : Except PyErr ExecOutcome :=
  executeWorkflow envDown "e" "n" wC2 .personMessage none 10

/-- S5: start node `A`, node `B` with incoming edges from `A` and from the
non-existent node `C`. -/
def wS5 : Workflow :=
  mkWorkflow
    [mkNode "A" .eventStart (.eventStart CommonCfg.none .personMessage none),
     mkNode "B" .replyMessage (.replyMessage CommonCfg.none "b" none none)]
    [mkEdge "eAB" "A" "B" none, mkEdge "eCB" "C" "B" none]
    none

/-!
### Dependency respect (invariant of the work loop)
-/

/-- Every node occurring in the executed list has all its graph predecessors
(sources of incoming edges) strictly earlier in the list. -/
def dependencyRespected (edges : List WorkflowEdge) (L : List String) : Prop :=
  ∀ (i : Nat) (h : i < L.length), ∀ e ∈ edges, e.target = L[i] → e.source ∈ L.take i

/-- Loop invariant: the `executed` set tracks exactly the members of
`context.executed_nodes`, and the executed list respects dependencies. -/
def coreInv (w : Workflow) (core : ExecCore) : Prop :=
  (∀ x, x ∈ core.executed ↔ x ∈ core.ctx.executed_nodes) ∧
  dependencyRespected w.edges core.ctx.executed_nodes

/-- `NodeWrapper.run` only stores the node output; it never touches
`executed_nodes`. -/
theorem createAndRun_executed_nodes (env : HttpEnv) (nowIso : String)
    (node : WorkflowNode) (ctx : WorkflowContext)
    (st : NodeStatus) (out : PyObj) (ctx' : WorkflowContext)
    (h : createAndRun env nowIso node ctx = .ok (st, out, ctx')) :
    ctx'.executed_nodes = ctx.executed_nodes := by
  unfold createAndRun at h
  split at h
  · cases hx : executeNode env nowIso node ctx with
    | ok p =>
        rw [hx] at h
        cases p
        simp only [Except.ok.injEq, Prod.mk.injEq] at h
        rw [← h.2.2]
    | error e => rw [hx] at h; cases h
  · cases h

/-- A satisfied dependency check means every incoming edge's source is in the
executed set. -/
theorem areDependenciesSatisfied_sources (w : Workflow) (executed : List String)
    (node : WorkflowNode) (h : areDependenciesSatisfied w executed node = true) :
    ∀ e ∈ w.edges, e.target = node.id → e.source ∈ executed := by
  intro e he ht
  unfold areDependenciesSatisfied reverseEdgeMapGet at h
  rw [List.all_eq_true] at h
  have hmem : e ∈ w.edges.filter (fun e => e.target == node.id) := by
    rw [List.mem_filter]
    exact ⟨he, by simp [ht]⟩
  have := h e hmem
  simpa [List.contains, List.elem_iff] using this

/-- Appending a node whose predecessors all lie in `L` preserves dependency
respect. -/
theorem dependencyRespected_append (edges : List WorkflowEdge) (L : List String)
    (nid : String) (hL : dependencyRespected edges L)
    (hdeps : ∀ e ∈ edges, e.target = nid → e.source ∈ L) :
    dependencyRespected edges (L ++ [nid]) := by
  intro i h e he ht
  rcases Nat.lt_or_ge i L.length with hi | hi
  · have hget : (L ++ [nid])[i] = L[i] := List.getElem_append_left hi
    rw [List.take_append_of_le_length (Nat.le_of_lt hi)]
    exact hL i hi e he (by rw [← hget]; exact ht)
  · have hlen : i = L.length := by
      have : i < L.length + 1 := by simpa using h
      omega
    have hget : (L ++ [nid])[i] = nid := List.getElem_concat_length L nid i hlen h
    subst hlen
    rw [List.take_left]
    exact hdeps e he (by rw [← hget]; exact ht)

/-- Shape of a step outcome that preserves the invariant. -/
def stepOutInv (w : Workflow) : StepOut → Prop
  | .cont core => coreInv w core
  | .raised _ core => coreInv w core

/-- The error handler path changes only errors, queue and skipped set. -/
theorem handleNodeError_inv (w : Workflow) (nowIso : String)
    (node : WorkflowNode) (core : ExecCore) (e : PyErr)
    (h : coreInv w core) : stepOutInv w (handleNodeError w nowIso node core e) := by
  unfold handleNodeError
  split
  · exact h
  · exact h
  · exact h

/-- One loop iteration preserves the invariant. -/
theorem stepNode_inv (env : HttpEnv) (nowIso : String) (w : Workflow)
    (node : WorkflowNode) (rest : List WorkflowNode) (core : ExecCore)
    (h : coreInv w core) : stepOutInv w (stepNode env nowIso w node rest core) := by
  unfold stepNode
  split
  · exact h
  · split
    · exact h
    · rename_i hskip hdep
      have hsat : areDependenciesSatisfied w core.executed node = true := by
        rcases hb : areDependenciesSatisfied w core.executed node with _ | _
        · rw [hb] at hdep; simp at hdep
        · rfl
      cases hrun : createAndRun env nowIso node
          {core.ctx with current_node := some node.id} with
      | ok p =>
          obtain ⟨st, out, ctx1⟩ := p
          have hctx1 : ctx1.executed_nodes = core.ctx.executed_nodes :=
            createAndRun_executed_nodes env nowIso node
              {core.ctx with current_node := some node.id} st out ctx1 hrun
          have hinv' : coreInv w
              ⟨rest ++ (enqueueSuccessors w out
                  (if node.type' == NodeType.condition then
                    (edgeMapGet w node.id).filter
                      (fun e => labelMatchesBranch e.label (branchOf out))
                  else edgeMapGet w node.id)).1,
                core.executed ++ [node.id], core.skipped,
                {ctx1 with executed_nodes := ctx1.executed_nodes ++ [node.id]}⟩ := by
            constructor
            · intro x
              simp only [List.mem_append, hctx1]
              constructor
              · rintro (hx | hx)
                · exact Or.inl ((h.1 x).mp hx)
                · exact Or.inr hx
              · rintro (hx | hx)
                · exact Or.inl ((h.1 x).mpr hx)
                · exact Or.inr hx
            · simp only [hctx1]
              apply dependencyRespected_append w.edges core.ctx.executed_nodes node.id h.2
              intro e he ht
              exact (h.1 e.source).mp
                (areDependenciesSatisfied_sources w core.executed node hsat e he ht)
          simp only [hrun]
          cases hq : enqueueSuccessors w out
              (if node.type' == NodeType.condition then
                (edgeMapGet w node.id).filter
                  (fun e => labelMatchesBranch e.label (branchOf out))
              else edgeMapGet w node.id) with
          | mk ns err =>
            cases err with
            | none =>
                simp only [hq]
                rw [hq] at hinv'
                exact hinv'
            | some e2 =>
                simp only [hq]
                rw [hq] at hinv'
                exact handleNodeError_inv w nowIso node _ e2 hinv'
      | error e2 =>
          simp only [hrun]
          exact handleNodeError_inv w nowIso node
            {core with queue := rest, ctx := {core.ctx with current_node := some node.id}} e2 h

/-- Shape of a loop outcome that preserves the invariant. -/
def loopOutInv (w : Workflow) : LoopOut → Prop
  | .finished core => coreInv w core
  | .raised _ core => coreInv w core
  | .outOfFuel => True

/-- The whole loop preserves the invariant. -/
theorem runLoop_inv (env : HttpEnv) (nowIso : String) (w : Workflow) :
    ∀ (fuel : Nat) (core : ExecCore), coreInv w core →
      loopOutInv w (runLoop env nowIso w fuel core) := by
  intro fuel
  induction fuel with
  | zero =>
      intro core h
      unfold runLoop
      cases hq : core.queue with
      | nil => exact h
      | cons n rest => trivial
  | succ f ih =>
      intro core h
      unfold runLoop
      cases hq : core.queue with
      | nil => exact h
      | cons node rest =>
          have hs := stepNode_inv env nowIso w node rest core h
          show loopOutInv w
            (match stepNode env nowIso w node rest core with
             | .cont core' => runLoop env nowIso w f core'
             | .raised e core' => .raised e core')
          cases hstep : stepNode env nowIso w node rest core with
          | cont core' =>
              rw [hstep] at hs
              exact ih core' hs
          | raised e core' =>
              rw [hstep] at hs
              exact hs

/-- C6.  Dependency respect: whenever the executor produces a result, every
node in `executed_nodes` has all of its graph predecessors (sources of
incoming edges) strictly earlier in the list.  This holds for success and
failure results alike, because a node is only run after
`_are_dependencies_satisfied` checks all its incoming edges against the
executed set. -/
theorem c6_executed_nodes_respect_dependencies (env : HttpEnv)
    (execId nowIso : String) (w : Workflow) (trigger : WorkflowTriggerType)
    (td : Option PyDict) (fuel : Nat) (r : WorkflowExecutionResult)
    (h : executeWorkflow env execId nowIso w trigger td fuel = .ok (.result r)) :
    dependencyRespected w.edges r.executed_nodes := by
  unfold executeWorkflow at h
  split at h
  · exact Except.noConfusion h
  · cases hv : initVariables (w.variables'.getD []) with
    | error e =>
        rw [hv] at h
        simp only [Bind.bind, Except.bind] at h
        exact Except.noConfusion h
    | ok vars =>
        rw [hv] at h
        simp only [Bind.bind, Except.bind] at h
        split at h
        · simp only [Except.ok.injEq, ExecOutcome.result.injEq] at h
          rw [← h]
          intro i hi _ _ _
          simp [buildFailedResult] at hi
        · rename_i hne
          have hinv0 : coreInv w ⟨findStartNodes w trigger, [], [],
              { workflow_id := w.id, execution_id := execId, trigger := trigger,
                trigger_data := td.getD [], variables' := vars,
                node_outputs := [], current_node := none, executed_nodes := [],
                started_at := nowIso, completed_at := none, errors := [] }⟩ := by
            constructor
            · intro x; simp
            · intro i hi
              simp at hi
          have hloop := runLoop_inv env nowIso w fuel _ hinv0
          cases hl : runLoop env nowIso w fuel ⟨findStartNodes w trigger, [], [],
              { workflow_id := w.id, execution_id := execId, trigger := trigger,
                trigger_data := td.getD [], variables' := vars,
                node_outputs := [], current_node := none, executed_nodes := [],
                started_at := nowIso, completed_at := none, errors := [] }⟩ with
          | finished core =>
              rw [hl] at h hloop
              simp only [Except.ok.injEq, ExecOutcome.result.injEq] at h
              rw [← h]
              exact hloop.2
          | raised e core =>
              rw [hl] at h hloop
              simp only [Except.ok.injEq, ExecOutcome.result.injEq] at h
              rw [← h]
              exact hloop.2
          | outOfFuel =>
              rw [hl] at h
              simp only [Except.ok.injEq] at h
              exact ExecOutcome.noConfusion h

/-- The result of the S1 run (used by the dependency-respect witness). -/
def s1Result : WorkflowExecutionResult :=
  match s1Run with
  | .ok (.result r) => r
  | _ => default

/-- Witness for C6: the S1 execution produces a result, and the theorem
yields dependency respect for it. -/
theorem c6_executed_nodes_respect_dependencies_witness :
    executeWorkflow envDown "e" "n" wS1 .personMessage
      (some [("content", .str "anything")]) 10 = .ok (.result s1Result) ∧
    dependencyRespected wS1.edges s1Result.executed_nodes :=
  ⟨rfl,
   c6_executed_nodes_respect_dependencies envDown "e" "n" wS1 .personMessage
     (some [("content", .str "anything")]) 10 s1Result rfl⟩

/-!
### Template substitution (claim C9)
-/

/-- Replacing a non-empty pattern inside the pattern itself yields exactly
the replacement: the match consumes the whole text and the replacement text
is never rescanned. -/
theorem replaceCharsAux_self (pat rep : List Char) (f : Nat)
    (hne : pat ≠ []) (hf : 0 < f) : replaceCharsAux pat rep f pat = rep := by
  cases pat with
  | nil => exact absurd rfl hne
  | cons c cs =>
    cases f with
    | zero => exact absurd hf (by omega)
    | succ f' =>
      have hpre : (c :: cs).isPrefixOf (c :: cs) = true := by
        rw [List.isPrefixOf_iff_prefix]
      unfold replaceCharsAux
      rw [if_pos hpre, List.drop_length]
      cases f' <;> simp [replaceCharsAux]

/-- Python `pat.replace(pat, rep) = rep` for non-empty `pat`. -/
theorem pyReplace_self (pat rep : String) (hne : pat.data ≠ []) :
    pyReplace pat pat rep = rep := by
  unfold pyReplace
  rw [replaceCharsAux_self pat.data rep.data pat.data.length hne
    (by cases hd : pat.data with
        | nil => exact absurd hd hne
        | cons c cs => simp)]

/-- Spec-modelled single-pass substitution (spec section 6, template grammar):
one left-to-right scan; a `\x7b\x7bNAME\x7d\x7d` token of a declared variable
is replaced by the stringification of its value and the scan continues after
the token, so text introduced by a replacement is never rescanned; anything
else is copied verbatim. The fuel serves structural recursion only. -/
def onePassAux (vars : List (String × WorkflowVariable)) : Nat → List Char → List Char
  | _, [] => []
  | 0, t => t
  | f + 1, c :: cs =>
    match vars.find? (fun p => (varToken p.1).data.isPrefixOf (c :: cs)) with
    | some p =>
        (pyStr p.2.value).data ++
          onePassAux vars f ((c :: cs).drop (varToken p.1).data.length)
    | none => c :: onePassAux vars f cs

/-- Spec-modelled single-pass variable interpolation. -/
def onePassSubstitute (vars : List (String × WorkflowVariable)) (content : String) : String :=
  ⟨onePassAux vars content.data.length content.data⟩

/-- Counterexample for C9.  With declared variables `a = "\x7b\x7bb\x7d\x7d"`
and `b = "x"` and template `"\x7b\x7ba\x7d\x7d"`, the code substitutes the
token that `a`'s value introduced (yielding `"x"`), while the claimed
single-pass rule leaves it alone (yielding `"\x7b\x7bb\x7d\x7d"`). -/
theorem c9_substitution_not_single_pass :
    substituteVariables
      [("a", ⟨"a", .str (varToken "b"), none, none⟩),
       ("b", ⟨"b", .str "x", none, none⟩)] (varToken "a") = "x" ∧
    onePassSubstitute
      [("a", ⟨"a", .str (varToken "b"), none, none⟩),
       ("b", ⟨"b", .str "x", none, none⟩)] (varToken "a") = varToken "b" ∧
    "x" ≠ varToken "b" := by
  refine ⟨by decide, by decide, by decide⟩

/-- C9 amended.  Interpolation is one global `str.replace` per declared
variable, applied sequentially in declaration order: a token introduced by an
earlier variable's value is substituted whenever it names a later variable.
Concretely, with `a` declared before `b`, `a = "\x7b\x7bb\x7d\x7d"` and
`b = v`, the template `"\x7b\x7ba\x7d\x7d"` interpolates to `v` for every
string `v` (unknown names, by contrast, are left as-is by the replace
loop). -/
theorem c9_amended_sequential_per_variable_replacement (v : String) :
    substituteVariables
      [("a", ⟨"a", .str (varToken "b"), none, none⟩),
       ("b", ⟨"b", .str v, none, none⟩)] (varToken "a") = v := by
  show pyReplace (pyReplace (varToken "a") (varToken "a") (pyStr (.str (varToken "b"))))
    (varToken "b") (pyStr (.str v)) = v
  have h1 : pyReplace (varToken "a") (varToken "a") (pyStr (.str (varToken "b")))
      = varToken "b" := by decide
  rw [h1]
  exact pyReplace_self (varToken "b") v (by decide)

/-!
### Manager debugging (claim C10)

`WorkflowManager.debug_workflow` (manager.py lines 291-327) builds a
`WorkflowDebugger` from the cached `Workflow` (the constructor stores it
without type checks), then calls `debugger.set_breakpoint(node_id)` for each
requested breakpoint outside its `try` block, and `debugger.debug_execute`
inside the `try`.  `WorkflowDebugger` (executor.py lines 308-350) defines
only `add_breakpoint`, `remove_breakpoint`, `enable_step_mode`,
`disable_step_mode`, `continue_execution` and `get_context_snapshot`.
-/

/-- The method names `WorkflowDebugger` actually defines. -/
def debuggerDefinedMethods : List String :=
  ["add_breakpoint", "remove_breakpoint", "enable_step_mode",
   "disable_step_mode", "continue_execution", "get_context_snapshot"]

/-- `WorkflowManager.debug_workflow`, abstracted over whether the workflow id
is in the cache (`workflowFound`).  The trigger, trigger data and
`on_breakpoint` callback never influence control flow and are omitted.  An
unknown workflow returns `None`.  A non-empty breakpoint list calls the
undefined `set_breakpoint` before the `try`, so the `AttributeError`
escapes.  Otherwise (after `enable_step_mode`, which is defined and only
sets a flag) the `try` block calls the undefined `debug_execute`, whose
`AttributeError` is caught, returning `None`. -/
def managerDebugWorkflow (workflowFound : Bool) (breakpoints : List String)
    (stepMode : Bool) : Except PyErr (Option WorkflowExecutionResult) :=
  if !workflowFound then .ok none
  else
    match breakpoints with
    | _ :: _ =>
        .error (.attributeError "WorkflowDebugger object has no attribute set_breakpoint")
    | [] =>
        let _ := stepMode
        .ok none

/-- Counterexample for C10: with a cached workflow and a non-empty breakpoint
list, `debug_workflow` raises `AttributeError` out of the function instead of
returning `None` (the `set_breakpoint` call sits outside the `try`). -/
theorem c10_nonempty_breakpoints_raise :
    managerDebugWorkflow true ["n1"] false
      = .error (.attributeError "WorkflowDebugger object has no attribute set_breakpoint") := rfl

/-- C10 amended.  `debug_workflow` never produces a debugged execution
result: with an empty breakpoint list the undefined `debug_execute` raises
inside the `try` and `None` is returned (likewise for a missing workflow),
and with a non-empty breakpoint list the undefined `set_breakpoint` raises
`AttributeError` out of `debug_workflow`. -/
theorem c10_debug_workflow_never_returns_result (workflowFound : Bool)
    (breakpoints : List String) (stepMode : Bool) :
    (breakpoints = [] →
      managerDebugWorkflow workflowFound breakpoints stepMode = .ok none) ∧
    ∀ r : WorkflowExecutionResult,
      managerDebugWorkflow workflowFound breakpoints stepMode ≠ .ok (some r) := by
  cases workflowFound <;> cases breakpoints <;>
    simp [managerDebugWorkflow]

/-- Witness for the amended C10 at a concrete input. -/
theorem c10_debug_workflow_never_returns_result_witness :
    (([] : List String) = [] →
      managerDebugWorkflow true [] false = .ok none) ∧
    ∀ r : WorkflowExecutionResult,
      managerDebugWorkflow true [] false ≠ .ok (some r) :=
  c10_debug_workflow_never_returns_result true [] false

/-!
### Persistence service (claim C8)

`WorkflowService.update_workflow` (api/http/service/workflow.py lines
129-163) works on plain dict rows of the `workflows` table.  The store is a
list of rows; `execute_async(select ...)` with a `where uuid ==` clause and
`.first()` is the first matching row; `execute_async(update ...)` merges the
value dict into every matching row.
-/

/-- A database row: column name to value. -/
abbrev Row := List (String × PyObj)

/-- Keys of a dict, in order. -/
def rowKeys {α : Type} (d : List (String × α)) : List String := d.map Prod.fst

/-- Genuine Python dicts have unique keys. -/
def keysNodup {α : Type} (d : List (String × α)) : Prop := (rowKeys d).Nodup

/-- The `where Workflow.uuid == workflow_uuid` predicate on a row. -/
def rowMatchesUuid (uuid : String) (r : Row) : Bool :=
  match pyDictGet r "uuid" with
  | some (.str s) => s == uuid
  | _ => false

/-- `update(...).values(**data)` applied to one row: each data column is
assigned over the row. -/
def mergeRow (r : Row) (d : Row) : Row :=
  d.foldl (fun acc p => pyDictSet acc p.1 p.2) r

/-- Lines 131-137: drop `uuid`, `id` and `created_at` from the update data. -/
def stripProtectedKeys (data : Row) : Row :=
  pyDictRemove (pyDictRemove (pyDictRemove data "uuid") "id") "created_at"

/-- Lines 139-141: `metadata` is popped and re-inserted as
`workflow_metadata`. -/
def renameMetadataKey (d : Row) : Row :=
  match pyDictGet d "metadata" with
  | some m => pyDictSet (pyDictRemove d "metadata") "workflow_metadata" m
  | none => d

/-- Lines 143-147: `trigger_types` is popped; a non-empty list stores its
first element as `trigger_type` (every caller passes a list here; an empty
one is dropped without setting `trigger_type`). -/
def flattenTriggerTypes (d : Row) : Row :=
  match pyDictGet d "trigger_types" with
  | some (.list (x :: _)) => pyDictSet (pyDictRemove d "trigger_types") "trigger_type" x
  | some _ => pyDictRemove d "trigger_types"
  | none => d

/-- Lines 149-157: read the current `version` of the matching row and
overwrite `data["version"]` with its successor when the row exists. -/
def bumpVersionFrom (store : List Row) (uuid : String) (d : Row) : Row :=
  match store.find? (rowMatchesUuid uuid) with
  | some row =>
      match pyDictGet row "version" with
      | some (.int n) => pyDictSet d "version" (.int (n + 1))
      | _ => d
  | none => d

/-- `WorkflowService.update_workflow`: prepare the update data, then apply
the SQL `update ... where uuid ==` to every matching row. -/
def serviceUpdateWorkflow (store : List Row) (uuid : String) (data : Row) : List Row :=
  store.map (fun r =>
    if rowMatchesUuid uuid r then
      mergeRow r (bumpVersionFrom store uuid
        (flattenTriggerTypes (renameMetadataKey (stripProtectedKeys data))))
    else r)

/-- The `version` column of the first row matching `uuid`. -/
def getVersionOf (store : List Row) (uuid : String) : Option PyObj :=
  match store.find? (rowMatchesUuid uuid) with
  | some r => pyDictGet r "version"
  | none => none

/-- Lookup in the empty dict. -/
theorem pyDictGet_nil {α : Type} (k : String) : pyDictGet ([] : List (String × α)) k = none := rfl

/-- Lookup hits a matching head entry. -/
theorem pyDictGet_cons_self {α : Type} (k : String) (v : α) (t : List (String × α)) :
    pyDictGet ((k, v) :: t) k = some v := by
  simp [pyDictGet, List.find?]

/-- Lookup skips a non-matching head entry. -/
theorem pyDictGet_cons_ne {α : Type} (k0 k : String) (v0 : α) (t : List (String × α))
    (h : k0 ≠ k) : pyDictGet ((k0, v0) :: t) k = pyDictGet t k := by
  have hb : (k0 == k) = false := by simp [h]
  simp [pyDictGet, List.find?, hb]

/-- Setting an existing head key replaces it in place. -/
theorem pyDictSet_cons_self {α : Type} (k : String) (v0 v : α) (t : List (String × α)) :
    pyDictSet ((k, v0) :: t) k v = (k, v) :: t := by
  simp [pyDictSet]

/-- Setting under a different head key recurses past it. -/
theorem pyDictSet_cons_ne {α : Type} (k0 k : String) (v0 v : α) (t : List (String × α))
    (h : k0 ≠ k) : pyDictSet ((k0, v0) :: t) k v = (k0, v0) :: pyDictSet t k v := by
  have hb : (k0 == k) = false := by simp [h]
  simp [pyDictSet, hb]

/-- Setting a key makes it look up to the new value. -/
theorem pyDictGet_pyDictSet_self {α : Type} (d : List (String × α)) (k : String) (v : α) :
    pyDictGet (pyDictSet d k v) k = some v := by
  induction d with
  | nil => simp [pyDictSet, pyDictGet, List.find?]
  | cons p t ih =>
      obtain ⟨k0, v0⟩ := p
      by_cases h : k0 = k
      · subst h
        rw [pyDictSet_cons_self]
        exact pyDictGet_cons_self k0 v t
      · rw [pyDictSet_cons_ne k0 k v0 v t h, pyDictGet_cons_ne k0 k v0 _ h]
        exact ih

/-- Setting a key leaves other lookups unchanged. -/
theorem pyDictGet_pyDictSet_ne {α : Type} (d : List (String × α)) (k k' : String) (v : α)
    (h : k' ≠ k) : pyDictGet (pyDictSet d k v) k' = pyDictGet d k' := by
  induction d with
  | nil =>
      rw [show pyDictSet ([] : List (String × α)) k v = [(k, v)] from rfl]
      rw [pyDictGet_cons_ne k k' v [] (fun hh => h hh.symm)]
  | cons p t ih =>
      obtain ⟨k0, v0⟩ := p
      by_cases h0 : k0 = k
      · subst h0
        rw [pyDictSet_cons_self]
        rw [pyDictGet_cons_ne k0 k' v t (fun hh => h hh.symm),
          pyDictGet_cons_ne k0 k' v0 t (fun hh => h hh.symm)]
      · rw [pyDictSet_cons_ne k0 k v0 v t h0]
        by_cases h1 : k0 = k'
        · subst h1
          rw [pyDictGet_cons_self, pyDictGet_cons_self]
        · rw [pyDictGet_cons_ne k0 k' v0 _ h1, pyDictGet_cons_ne k0 k' v0 t h1]
          exact ih

/-- Keys after a set are among the old keys plus the set key. -/
theorem mem_rowKeys_pyDictSet {α : Type} (d : List (String × α)) (k x : String) (v : α)
    (hx : x ∈ rowKeys (pyDictSet d k v)) : x ∈ rowKeys d ∨ x = k := by
  induction d with
  | nil => simpa [pyDictSet, rowKeys] using hx
  | cons p t ih =>
      obtain ⟨k0, v0⟩ := p
      by_cases h0 : k0 = k
      · subst h0
        rw [pyDictSet_cons_self] at hx
        rcases List.mem_cons.mp hx with h | h
        · exact Or.inr h
        · exact Or.inl (List.mem_cons_of_mem _ h)
      · rw [pyDictSet_cons_ne k0 k v0 v t h0] at hx
        rcases List.mem_cons.mp hx with h | h
        · exact Or.inl (h ▸ List.mem_cons_self _ _)
        · rcases ih h with h' | h'
          · exact Or.inl (List.mem_cons_of_mem _ h')
          · exact Or.inr h'

/-- Setting a key preserves key uniqueness. -/
theorem keysNodup_pyDictSet {α : Type} (d : List (String × α)) (k : String) (v : α)
    (h : keysNodup d) : keysNodup (pyDictSet d k v) := by
  induction d with
  | nil => simp [pyDictSet, keysNodup, rowKeys]
  | cons p t ih =>
      obtain ⟨k0, v0⟩ := p
      have hsplit := List.nodup_cons.mp (show (k0 :: rowKeys t).Nodup from h)
      by_cases hk : k0 = k
      · subst hk
        rw [pyDictSet_cons_self]
        exact List.nodup_cons.mpr hsplit
      · rw [pyDictSet_cons_ne k0 k v0 v t hk]
        have hnotin : k0 ∉ rowKeys (pyDictSet t k v) := by
          intro hmem
          rcases mem_rowKeys_pyDictSet t k k0 v hmem with hc | hc
          · exact hsplit.1 hc
          · exact hk hc
        exact List.nodup_cons.mpr ⟨hnotin, ih hsplit.2⟩

/-- Removing a key preserves key uniqueness. -/
theorem keysNodup_pyDictRemove {α : Type} (d : List (String × α)) (k : String)
    (h : keysNodup d) : keysNodup (pyDictRemove d k) := by
  have hsub : List.Sublist (rowKeys (pyDictRemove d k)) (rowKeys d) :=
    List.Sublist.map Prod.fst (List.filter_sublist d)
  exact List.Nodup.sublist hsub h

/-- The removed key is absent afterwards. -/
theorem not_mem_rowKeys_pyDictRemove {α : Type} (d : List (String × α)) (k : String) :
    k ∉ rowKeys (pyDictRemove d k) := by
  intro h
  rcases List.mem_map.mp h with ⟨p, hp, hk⟩
  have := (List.mem_filter.mp hp).2
  rw [hk] at this
  simp at this

/-- Removal never adds keys. -/
theorem mem_rowKeys_pyDictRemove {α : Type} (d : List (String × α)) (k x : String)
    (h : x ∈ rowKeys (pyDictRemove d k)) : x ∈ rowKeys d := by
  rcases List.mem_map.mp h with ⟨p, hp, hk⟩
  exact hk ▸ List.mem_map.mpr ⟨p, (List.mem_filter.mp hp).1, rfl⟩

/-- Merging a dict that lacks key `k` leaves the `k` column of the row
unchanged. -/
theorem pyDictGet_mergeRow_not_mem (r d : Row) (k : String)
    (h : k ∉ rowKeys d) : pyDictGet (mergeRow r d) k = pyDictGet r k := by
  induction d generalizing r with
  | nil => rfl
  | cons p t ih =>
      obtain ⟨k0, v0⟩ := p
      have hk0 : k0 ≠ k := by
        intro hc
        exact h (hc ▸ List.mem_cons_self _ _)
      have hnt : k ∉ rowKeys t := fun hc => h (List.mem_cons_of_mem _ hc)
      show pyDictGet (mergeRow (pyDictSet r k0 v0) t) k = pyDictGet r k
      rw [ih (pyDictSet r k0 v0) hnt]
      exact pyDictGet_pyDictSet_ne r k0 k v0 (fun hc => hk0 hc.symm)

/-- Merging a unique-keyed dict writes each of its columns into the row. -/
theorem pyDictGet_mergeRow_of_get (d : Row) (k : String) (x : PyObj) :
    ∀ (r : Row), keysNodup d → pyDictGet d k = some x →
      pyDictGet (mergeRow r d) k = some x := by
  induction d with
  | nil =>
      intro r _ hget
      simp [pyDictGet, List.find?] at hget
  | cons p t ih =>
      obtain ⟨k0, v0⟩ := p
      intro r hd hget
      have hsplit := List.nodup_cons.mp (show (k0 :: rowKeys t).Nodup from hd)
      by_cases hk : k0 = k
      · subst hk
        have hx : x = v0 := by
          rw [pyDictGet_cons_self] at hget
          exact (Option.some.inj hget).symm
        rw [hx]
        show pyDictGet (mergeRow (pyDictSet r k0 v0) t) k0 = some v0
        rw [pyDictGet_mergeRow_not_mem (pyDictSet r k0 v0) t k0 hsplit.1]
        exact pyDictGet_pyDictSet_self r k0 v0
      · have hget2 : pyDictGet t k = some x := by
          rw [pyDictGet_cons_ne k0 k v0 t hk] at hget
          exact hget
        show pyDictGet (mergeRow (pyDictSet r k0 v0) t) k = some x
        exact ih (pyDictSet r k0 v0) hsplit.2 hget2

/-- `find?` commutes with a map that preserves the predicate. -/
theorem find?_map_of_pred_eq {α : Type} (l : List α) (f : α → α) (p : α → Bool)
    (hp : ∀ r, p (f r) = p r) : (l.map f).find? p = (l.find? p).map f := by
  induction l with
  | nil => rfl
  | cons a t ih =>
      by_cases h : p a = true
      · simp [List.find?, hp a, h]
      · have h' : p a = false := by
          cases hb : p a
          · rfl
          · exact absurd hb h
        simp [List.find?, hp a, h', ih]

/-- A key stays absent under a set of a different key. -/
theorem not_mem_rowKeys_pyDictSet_of {α : Type} (d : List (String × α)) (k x : String)
    (v : α) (h1 : x ∉ rowKeys d) (h2 : x ≠ k) : x ∉ rowKeys (pyDictSet d k v) := by
  intro hm
  rcases mem_rowKeys_pyDictSet d k x v hm with hc | hc
  · exact h1 hc
  · exact h2 hc

/-- A key stays absent under any removal. -/
theorem not_mem_rowKeys_pyDictRemove_of {α : Type} (d : List (String × α)) (k x : String)
    (h1 : x ∉ rowKeys d) : x ∉ rowKeys (pyDictRemove d k) :=
  fun hm => h1 (mem_rowKeys_pyDictRemove d k x hm)

/-- The prepared update data never contains a `uuid` column. -/
theorem uuid_not_mem_prepared (data : Row) :
    "uuid" ∉ rowKeys (flattenTriggerTypes (renameMetadataKey (stripProtectedKeys data))) := by
  have h1 : "uuid" ∉ rowKeys (stripProtectedKeys data) := by
    unfold stripProtectedKeys
    apply not_mem_rowKeys_pyDictRemove_of
    apply not_mem_rowKeys_pyDictRemove_of
    exact not_mem_rowKeys_pyDictRemove data "uuid"
  have h2 : "uuid" ∉ rowKeys (renameMetadataKey (stripProtectedKeys data)) := by
    unfold renameMetadataKey
    cases pyDictGet (stripProtectedKeys data) "metadata" with
    | none => exact h1
    | some m =>
        exact not_mem_rowKeys_pyDictSet_of _ _ _ _
          (not_mem_rowKeys_pyDictRemove_of _ _ _ h1) (by decide)
  unfold flattenTriggerTypes
  cases hg : pyDictGet (renameMetadataKey (stripProtectedKeys data)) "trigger_types" with
  | none => exact h2
  | some m =>
      cases m with
      | list xs =>
          cases xs with
          | nil => exact not_mem_rowKeys_pyDictRemove_of _ _ _ h2
          | cons x t =>
              exact not_mem_rowKeys_pyDictSet_of _ _ _ _
                (not_mem_rowKeys_pyDictRemove_of _ _ _ h2) (by decide)
      | null => exact not_mem_rowKeys_pyDictRemove_of _ _ _ h2
      | bool b => exact not_mem_rowKeys_pyDictRemove_of _ _ _ h2
      | int n => exact not_mem_rowKeys_pyDictRemove_of _ _ _ h2
      | str s2 => exact not_mem_rowKeys_pyDictRemove_of _ _ _ h2
      | dict kvs => exact not_mem_rowKeys_pyDictRemove_of _ _ _ h2

/-- Unique keys survive the data preparation. -/
theorem keysNodup_prepared (data : Row) (h : keysNodup data) :
    keysNodup (flattenTriggerTypes (renameMetadataKey (stripProtectedKeys data))) := by
  have h1 : keysNodup (stripProtectedKeys data) := by
    unfold stripProtectedKeys
    exact keysNodup_pyDictRemove _ _ (keysNodup_pyDictRemove _ _ (keysNodup_pyDictRemove _ _ h))
  have h2 : keysNodup (renameMetadataKey (stripProtectedKeys data)) := by
    unfold renameMetadataKey
    cases pyDictGet (stripProtectedKeys data) "metadata" with
    | none => exact h1
    | some m => exact keysNodup_pyDictSet _ _ _ (keysNodup_pyDictRemove _ _ h1)
  unfold flattenTriggerTypes
  cases pyDictGet (renameMetadataKey (stripProtectedKeys data)) "trigger_types" with
  | none => exact h2
  | some m =>
      cases m with
      | list xs =>
          cases xs with
          | nil => exact keysNodup_pyDictRemove _ _ h2
          | cons x t => exact keysNodup_pyDictSet _ _ _ (keysNodup_pyDictRemove _ _ h2)
      | null => exact keysNodup_pyDictRemove _ _ h2
      | bool b => exact keysNodup_pyDictRemove _ _ h2
      | int n => exact keysNodup_pyDictRemove _ _ h2
      | str s2 => exact keysNodup_pyDictRemove _ _ h2
      | dict kvs => exact keysNodup_pyDictRemove _ _ h2

/-- C8.  Version monotonicity at the persistence boundary: when a workflow
row with integer version `v` exists, `update_workflow` re-reads that version
and writes back exactly `v + 1`, whatever `version` the caller supplied in
the update data (the read-modify-write overwrites it). -/
theorem c8_update_workflow_increments_version (store : List Row) (uuid : String)
    (data : Row) (v : Int) (row : Row)
    (hfind : store.find? (rowMatchesUuid uuid) = some row)
    (hver : pyDictGet row "version" = some (.int v))
    (hnodup : keysNodup data) :
    getVersionOf (serviceUpdateWorkflow store uuid data) uuid
      = some (.int (v + 1)) := by
  have hd4 : bumpVersionFrom store uuid
      (flattenTriggerTypes (renameMetadataKey (stripProtectedKeys data)))
      = pyDictSet (flattenTriggerTypes (renameMetadataKey (stripProtectedKeys data)))
          "version" (.int (v + 1)) := by
    unfold bumpVersionFrom
    simp only [hfind, hver]
  have hnodup4 : keysNodup
      (pyDictSet (flattenTriggerTypes (renameMetadataKey (stripProtectedKeys data)))
        "version" (.int (v + 1))) :=
    keysNodup_pyDictSet _ _ _ (keysNodup_prepared data hnodup)
  have huuid4 : "uuid" ∉ rowKeys
      (pyDictSet (flattenTriggerTypes (renameMetadataKey (stripProtectedKeys data)))
        "version" (.int (v + 1))) :=
    not_mem_rowKeys_pyDictSet_of _ _ _ _ (uuid_not_mem_prepared data) (by decide)
  have hpred : ∀ r : Row,
      rowMatchesUuid uuid
        (if rowMatchesUuid uuid r then
          mergeRow r
            (pyDictSet (flattenTriggerTypes (renameMetadataKey (stripProtectedKeys data)))
              "version" (.int (v + 1)))
        else r)
        = rowMatchesUuid uuid r := by
    intro r
    by_cases hb : rowMatchesUuid uuid r = true
    · rw [if_pos hb]
      unfold rowMatchesUuid
      rw [pyDictGet_mergeRow_not_mem r _ "uuid" huuid4]
    · rw [if_neg hb]
  have hmatch : rowMatchesUuid uuid row = true := List.find?_some hfind
  unfold serviceUpdateWorkflow getVersionOf
  rw [hd4, find?_map_of_pred_eq store _ _ hpred, hfind]
  show pyDictGet
      (if rowMatchesUuid uuid row then
        mergeRow row
          (pyDictSet (flattenTriggerTypes (renameMetadataKey (stripProtectedKeys data)))
            "version" (.int (v + 1)))
      else row) "version" = some (.int (v + 1))
  rw [if_pos hmatch]
  exact pyDictGet_mergeRow_of_get
    (pyDictSet (flattenTriggerTypes (renameMetadataKey (stripProtectedKeys data)))
      "version" (.int (v + 1)))
    "version" (.int (v + 1)) row hnodup4
    (pyDictGet_pyDictSet_self
      (flattenTriggerTypes (renameMetadataKey (stripProtectedKeys data)))
      "version" (PyObj.int (v + 1)))

instance {α : Type} (d : List (String × α)) : Decidable (keysNodup d) :=
  inferInstanceAs (Decidable (d.map Prod.fst).Nodup)

/-- Witness for C8 at a concrete one-row store. -/
theorem c8_update_workflow_increments_version_witness :
    ([[("uuid", PyObj.str "u1"), ("version", PyObj.int 3), ("name", PyObj.str "old")]].find?
        (rowMatchesUuid "u1")
      = some [("uuid", PyObj.str "u1"), ("version", PyObj.int 3), ("name", PyObj.str "old")]) ∧
    getVersionOf
      (serviceUpdateWorkflow
        [[("uuid", PyObj.str "u1"), ("version", PyObj.int 3), ("name", PyObj.str "old")]]
        "u1" [("name", PyObj.str "new"), ("version", PyObj.int 3)])
      "u1" = some (PyObj.int 4) :=
  ⟨by rfl,
   c8_update_workflow_increments_version
     [[("uuid", PyObj.str "u1"), ("version", PyObj.int 3), ("name", PyObj.str "old")]]
     "u1" [("name", PyObj.str "new"), ("version", PyObj.int 3)] 3
     [("uuid", PyObj.str "u1"), ("version", PyObj.int 3), ("name", PyObj.str "old")]
     (by rfl) (by rfl) (by decide)⟩


/-!
### Validated-runtime semantics (`use_enum_values`)

`WorkflowNode`, `Workflow`, `WorkflowContext` and `WorkflowExecutionResult`
declare `model_config = ConfigDict(..., use_enum_values=True)` (entities.py),
so every pydantic-validated instance stores an enum-declared field as its
plain value string, and `EventStartConfig.trigger_type` is declared `str`
outright (entities.py, "Changed from WorkflowTriggerType to str").  The
entity enums subclass `enum.Enum` only (not `str`), so Python `==` between a
stored value string and an enum member is `False` (`str.__eq__` yields
`NotImplemented` and `Enum.__eq__` falls back to identity), and `.value` on
a stored string raises `AttributeError`.  The definitions below model the
executor and serializer as reached with validated entities; the runtime
content of an enum-typed model field `f` is written `f.value`.
-/

/-- Python `==` between a `str` and a member of a plain `enum.Enum`: `False`
for every string and member (`str.__eq__` returns `NotImplemented`;
`Enum.__eq__` compares by identity). -/
def pyStrEqEnum {α : Type} (_s : String) (_m : α) : Bool := false

/-- The `.value` attribute access on a plain `str` (the stored form of every
`use_enum_values` field): raises `AttributeError`. -/
def pyStrDotValue (_s : String) : Except PyErr String :=
  .error (.attributeError "str object has no attribute value")

/-- `_find_start_nodes` (executor.py lines 138-151) over validated entities:
the stored `node.type` is a value string, so the membership test
`node.type in [NodeType.EVENT_START, NodeType.SCHEDULE_START]` is a
string-vs-enum comparison failing for every node.  The inner checks — the
str-vs-str comparison `config.trigger_type == self.context.trigger` (which
can succeed: both sides are plain strings) and the schedule-trigger
comparison (string vs enum) — are translated but never reached. -/
def findStartNodesValidated (w : Workflow) (ctxTrigger : String) : List WorkflowNode :=
  w.nodes.filter (fun node =>
    if pyStrEqEnum node.type'.value NodeType.eventStart ||
        pyStrEqEnum node.type'.value NodeType.scheduleStart then
      if pyStrEqEnum node.type'.value NodeType.eventStart then
        match node.config with
        | .eventStart _ tt _ => tt.value == ctxTrigger
        | _ => false
      else
        pyStrEqEnum ctxTrigger WorkflowTriggerType.scheduled
    else false)

/-- No validated workflow ever yields a start node, whatever the trigger. -/
theorem findStartNodesValidated_empty (w : Workflow) (t : String) :
    findStartNodesValidated w t = [] := by
  simp [findStartNodesValidated, pyStrEqEnum]

/-- `execute` (executor.py lines 54-136) over validated entities.  The
status check at line 63 sits before the `try` block and compares the stored
value string (`"active"` for an active workflow) against the enum member
`WorkflowStatus.ACTIVE`; a string never equals a plain-`Enum` member, so the
check fails and `ValueError` is raised before a context exists, before start
nodes are sought and before any node can run, and the function never returns
a `WorkflowExecutionResult`.  The branch for an equal comparison — where
context initialization, `_find_start_nodes` and the traversal loop follow in
the source — is provably unreachable. -/
def executeValidated (w : Workflow) (_trigger : WorkflowTriggerType) :
    Except PyErr WorkflowExecutionResult :=
  if h : pyStrEqEnum w.status.value WorkflowStatus.active = true then
    Bool.noConfusion h
  else
    .error (.valueError ("Workflow is not active: " ++ w.status.value))

/-- The branch-filter guard `node.type == NodeType.CONDITION` (executor.py
line 183) over validated entities: a stored value string compared to an enum
member. -/
def branchFilterApplies (node : WorkflowNode) : Bool :=
  pyStrEqEnum node.type'.value NodeType.condition

/-- `WorkflowSerializer.to_dict` (serializer.py lines 46-69) over validated
entities: the `workflow` dict literal evaluates its entries in order;
`id`/`name`/`description`/`version` are plain accesses, then
`workflow.status.value` (line 55) is evaluated on the stored value string
and raises `AttributeError`, which propagates out of `to_dict` and out of
`to_yaml` (lines 41-44, which calls `to_dict` first).  The later enum-value
accesses (`t.value` over `trigger_types` at line 56, `node.type.value` at
line 76, `config.trigger_type.value` at line 105) would raise identically
but are never reached; success is impossible. -/
def workflowToDictValidated (w : Workflow) : Except PyErr PyObj :=
  match h : pyStrDotValue w.status.value with
  | .error e => .error e
  | .ok v =>
      Except.noConfusion (show (Except.error (PyErr.attributeError
        "str object has no attribute value") : Except PyErr String)
          = Except.ok v from h)

/-!
### Claim theorems: executor and serializer at validated runtime values
-/

/-- C1.  The claim: a handler-reported `(Failed, dict with error)` makes the
executor record the error and apply the node's `error_handler`, `stop`
aborting traversal into a Failed result with no subsequent node executing.
The program never reaches any of this: on the S3 workflow (active;
event_start → http_request with `error_handler="stop"` over a failing
network → reply_message) `execute` raises `ValueError` at the status check
(executor.py line 63, before the `try`: the stored status string `"active"`
never equals the enum member), so no context exists, no node runs, the http
node's error is never recorded, no error handler is consulted, and no result
of any status is returned.  Even past that check no start node would match,
and `NodeWrapper.run` (nodes/__init__.py lines 52-61) discards the handler's
`NodeStatus`. -/
theorem c1_execute_raises_before_any_node_runs :
    executeValidated wS3 .personMessage
      = .error (.valueError "Workflow is not active: active") ∧
    findStartNodesValidated wS3 "person_message" = [] :=
  ⟨rfl, findStartNodesValidated_empty wS3 "person_message"⟩

/-- C2.  The claim: after a condition or chat_command_branch node exactly
the label-matching edges are traversed and the condition output carries a
`branch` key of `"true"`/`"false"`.  The program performs no selection at
all: on `wC2` (active; event_start → condition with an edge labelled
`"false"` and an unlabelled edge) `execute` raises `ValueError` at the
status check before any traversal, so the condition node never runs and no
edge is ever followed; and the branch-filter guard itself (executor.py line
183) compares the stored value string to an enum member and holds for no
node whatsoever, so even inside a traversal every outgoing edge would be
followed rather than a label-selected subset (the condition handler also
emits only `result`, never a `branch` key). -/
theorem c2_branch_selection_never_performed :
    executeValidated wC2 .personMessage
      = .error (.valueError "Workflow is not active: active") ∧
    ∀ node : WorkflowNode, branchFilterApplies node = false :=
  ⟨rfl, fun _ => rfl⟩

/-- C3.  The claim: when every queued node is non-ready, execution fails
with `unsatisfiable_dependencies` and a Failed result instead of re-queuing
forever.  No such failure mode exists: the token `unsatisfiable_dependencies`
occurs nowhere in the code, the re-queue at executor.py lines 168-171 is
unconditional with no starvation counter, and the S5 run (`B` depending on
the non-existent `C`) never reaches the loop at all — `execute` raises
`ValueError` at the status check (line 63, before the `try`), returning no
result of any kind, and even past it no start node would match. -/
theorem c3_unsatisfiable_dependencies_never_raised :
    executeValidated wS5 .personMessage
      = .error (.valueError "Workflow is not active: active") ∧
    findStartNodesValidated wS5 "person_message" = [] :=
  ⟨rfl, findStartNodesValidated_empty wS5 "person_message"⟩

/-- C5.  The claim: the S1 run (event_start → reply_message with content
`"hi {{name}}"`, variable `name` defaulting to `"world"`) returns Success
with `messages_sent = [dict(content="hi world")]`.  The program executes
nothing: `execute` raises `ValueError` at the status check (executor.py line
63, before the `try`), no context or result exists and the reply node never
runs; even past that check no start node would match, and
`ReplyMessageNode.execute` never appends to any `messages_sent` list (the
send is a TODO), while the executor reads the attribute with a `[]`
fallback. -/
theorem c5_no_message_ever_sent :
    executeValidated wS1 .personMessage
      = .error (.valueError "Workflow is not active: active") ∧
    findStartNodesValidated wS1 "person_message" = [] :=
  ⟨rfl, findStartNodesValidated_empty wS1 "person_message"⟩

/-- C7.  The claim: a failing node with `error_handler="skip"` lets
downstream nodes run, the run succeed, and the failed node be reported in
`Result.skipped_nodes`.  The program executes nothing on S4: `execute`
raises `ValueError` at the status check (executor.py line 63, before the
`try`), so neither the http node nor the reply node runs and no result of
any status is produced; even past that check no start node would match, and
the executor in any case never passes its local `skipped` set into the
result, whose pydantic default `[]` applies. -/
theorem c7_skip_policy_never_reached :
    executeValidated wS4 .personMessage
      = .error (.valueError "Workflow is not active: active") ∧
    findStartNodesValidated wS4 "person_message" = [] :=
  ⟨rfl, findStartNodesValidated_empty wS4 "person_message"⟩

/-- C4.  The claim: for workflows producible by the API,
`deserialize(serialize(w)) == w` modulo timestamp normalization and
defaulting.  Serialization never completes for any validated workflow:
`to_dict` evaluates `workflow.status.value` (serializer.py line 55) on the
stored value string and raises `AttributeError`, so `to_yaml` raises and no
round trip ever begins, let alone returns `w`.  (The deserializer has the
matching defect: `_dict_to_config` passes a `WorkflowTriggerType` member for
the `str`-declared `trigger_type`, serializer.py lines 297-303, which
pydantic rejects.) -/
theorem c4_serialize_raises_for_every_workflow (w : Workflow) :
    workflowToDictValidated w
      = .error (.attributeError "str object has no attribute value") := rfl
